import Mathlib

/-!
Verification development for the kana-dev container lifecycle orchestration
layer.  The Lean definitions below are shallow embeddings of the Go sources:
`internal/wordpress/wordpress.go` (package `docker`, engine availability
guard) and the `site` package (mount planning, container-spec building,
wp-cli invocation, start/stop orchestration).  External effects (directory
creation, engine calls, the SQLite-mode check) are modelled as oracle fields
threaded through a `Site` record, so every definition stays executable.
-/

/- ----------------------------------------------------------------- -/
/- Engine availability guard: package docker, ensureDockerIsAvailable -/
/- ----------------------------------------------------------------- -/

/-- Host platform, mirroring `runtime.GOOS` as consumed by the guard. -/
inductive HostOS where
  | darwin
  | other
deriving DecidableEq, Repr

/-- Possible results of `ensureDockerIsAvailable`.  `listErr n` is the raw
error of the `n`-th listing call returned as-is (`n = 0` is the initial
call, `n ≥ 1` are retry-loop calls); `tooLong` is the
"Restarting Docker is taking too long" exhaustion error; `launchFail` is
the "unable to start Docker for Mac" error from a failed launcher spawn. -/
inductive GuardOutcome where
  | ok
  | launchFail
  | tooLong
  | listErr (attempt : Nat)
deriving DecidableEq, Repr

/-- `var maxRetries = 12` in wordpress.go. -/
def maxRetries : Nat := 12

/-- `var sleepDuration = 5` (seconds between retry listings) in wordpress.go. -/
def sleepDuration : Nat := 5

/-- The retry loop of `ensureDockerIsAvailable` (wordpress.go lines 115-131).
`listOk r` tells whether the `r`-th listing call succeeds.  The last
component counts how many retry listing calls were performed.  Transcribed
from the source:

    retries := 0
    for retries <= maxRetries {
        retries++
        if retries == maxRetries { return error("taking too long") }
        time.Sleep(...)
        _, err = apiClient.ContainerList(...)
        if err != nil { return err }
    }

The loop is embedded structurally on `fuel`, the number of times the loop
guard `retries <= maxRetries` can still come out true — for a counter
value `retries` that is `maxR + 1 - retries`, which shrinks by one per
iteration as the counter grows by one.  Fuel 0 means the guard fails: the
loop falls through to the final `return err`, whose value is then nil
because the guard is only re-checked after a successful listing. -/
def dockerRetryLoopAux (listOk : Nat → Bool) (maxR : Nat) :
    Nat → Nat → Nat → GuardOutcome × Nat
  | 0, _, calls => (GuardOutcome.ok, calls)
  | fuel + 1, retries, calls =>
    let r := retries + 1
    if r = maxR then (GuardOutcome.tooLong, calls)
    else if listOk r then dockerRetryLoopAux listOk maxR fuel r (calls + 1)
    else (GuardOutcome.listErr r, calls + 1)

/-- The retry loop entered with counter value `retries`. -/
def dockerRetryLoop (listOk : Nat → Bool) (maxR retries calls : Nat) :
    GuardOutcome × Nat :=
  dockerRetryLoopAux listOk maxR (maxR + 1 - retries) retries calls

/-- `ensureDockerIsAvailable` (wordpress.go lines 105-136).  `listOk 0` is
the initial `ContainerList` call; on failure, on darwin, the launcher is
spawned (`launchOk`) and the retry loop runs; on any other platform the
initial error is returned directly.  The second component is the number of
retry listing calls performed. -/
def ensureDockerIsAvailable (goos : HostOS) (launchOk : Bool)
    (listOk : Nat → Bool) : GuardOutcome × Nat :=
  if listOk 0 then (GuardOutcome.ok, 0)
  else if goos = HostOS.darwin then
    if launchOk then dockerRetryLoop listOk maxRetries 0 0
    else (GuardOutcome.launchFail, 0)
  else (GuardOutcome.listErr 0, 0)

/- ----------------------------------------------------------------- -/
/- Data model: docker.ContainerConfig, mount.Mount, site settings     -/
/- ----------------------------------------------------------------- -/

/-- `mount.Mount`: bind-mount spec (the source only uses `Type: bind`). -/
structure Mount where
  mountType : String
  Source : String
  Target : String
deriving DecidableEq, Repr

/-- `docker.ContainerConfig`.  Labels are kept as an ordered association
list (Go's map carries no claim-relevant order). -/
structure ContainerConfig where
  Name : String := ""
  Image : String := ""
  NetworkName : String := ""
  HostName : String := ""
  Command : List String := []
  Env : List String := []
  Labels : List (String × String) := []
  Volumes : List Mount := []
deriving DecidableEq, Repr

/-- A mount record as returned by `ContainerGetMounts` (only the
`Destination` field is consulted by `WPCli`). -/
structure InspectMount where
  Destination : String
deriving DecidableEq, Repr

/-- The settings fields of a site consumed by the embedded functions.
`siteType` embeds `Settings.Type` (artifact type: "site", "plugin",
"theme"). -/
structure SiteSettings where
  Name : String := ""
  SiteDomain : String := ""
  PHP : String := ""
  siteType : String := "site"
  WorkingDirectory : String := ""
  SiteDirectory : String := ""
  Environment : String := ""
  AutomaticLogin : Bool := false
  WPDebug : Bool := false
  ScriptDebug : Bool := false
  IsNamedSite : Bool := false
deriving DecidableEq, Repr

/-- A site together with the oracles standing for its external
collaborators: `sqliteResult` is the outcome of `isUsingSQLite` (its body
is outside the provided sources; per the spec it reports whether the
embedded-database mode is selected, and may fail); `getSiteLinkResult` is
`GetSiteLink`; `mkdirOk d` tells whether `os.MkdirAll d` succeeds;
`containerMounts` is the `ContainerGetMounts` answer used by `WPCli`;
`overrideTypeFails` makes `settings.OverrideType` fail; `ensureImageOk` is
the `EnsureImage` outcome; `runAndClean` is the `(code, output, err)`
triple returned by `ContainerRunAndClean`; `ensureNetworkOk`,
`getDirectoriesResult`, `startContainerOk`, `verifyDatabaseOk` serve
`startWordPress`. -/
structure Site where
  settings : SiteSettings := {}
  sqliteResult : Except Unit Bool := Except.ok false
  getSiteLinkResult : Except Unit String := Except.ok ""
  mkdirOk : String → Bool := fun _ => true
  containerMounts : List InspectMount := []
  overrideTypeFails : Bool := false
  ensureImageOk : Bool := true
  runAndClean : Int × String × Option Unit := (0, "", none)
  ensureNetworkOk : Bool := true
  getDirectoriesResult : Except Unit (String × String) := Except.ok ("", "")
  startContainerOk : String → Bool := fun _ => true
  verifyDatabaseOk : Bool := true

/-- Go `filepath.Join` on two components, for the clean, separator-free
components the sources pass (path-cleaning of `..`/empty parts is not
exercised by them). -/
def filepathJoin (a b : String) : String := a ++ "/" ++ b

/-- Prefix test on character lists (used to embed `strings.Contains`). -/
def hasPrefixChars : List Char → List Char → Bool
  | _, [] => true
  | [], _ :: _ => false
  | a :: as, b :: bs => if a = b then hasPrefixChars as bs else false

/-- Substring test on character lists. -/
def containsChars : List Char → List Char → Bool
  | [], pat => pat.isEmpty
  | a :: as, pat => hasPrefixChars (a :: as) pat || containsChars as pat

/-- Go `strings.Contains hay pat`. -/
def strContains (hay pat : String) : Bool := containsChars hay.data pat.data

/- ----------------------------------------------------------------- -/
/- Site functions from the site package                               -/
/- ----------------------------------------------------------------- -/

/-- Modelled from the spec: `DefaultType` is the artifact type of a full
site — artifact type ∈ \x7bsite, plugin, theme\x7d with `site` the
full-site default (the constant's own definition is outside the provided
sources). -/
def DefaultType : String := "site"

/-- `getWordPressDirectory` (part_000 lines 27-49): picks the WordPress
directory from the site directory, working directory and artifact type,
then ensures it exists (`os.MkdirAll`, via the `mkdirOk` oracle). -/
def getWordPressDirectory (s : Site) : Except Unit String :=
  let d0 := filepathJoin s.settings.SiteDirectory "wordpress"
  match s.getSiteLinkResult with
  | Except.error e => Except.error e
  | Except.ok siteLink =>
    let d :=
      if s.settings.IsNamedSite = false ∨ siteLink ≠ "" then
        if s.settings.siteType ≠ DefaultType then
          filepathJoin s.settings.WorkingDirectory "wordpress"
        else s.settings.WorkingDirectory
      else d0
    if s.mkdirOk d then Except.ok d else Except.error ()

/-- The two always-present binds (the initial `appVolumes` value of
`getWordPressMounts`, part_000 lines 93-104): document root and the site
data directory. -/
def baseWordPressMounts (s : Site) (appDir : String) : List Mount :=
  [{ mountType := "bind", Source := appDir, Target := "/var/www/html" },
   { mountType := "bind", Source := s.settings.SiteDirectory, Target := "/Site" }]

/-- `getWordPressMounts` (part_000 lines 92-146).  The Bool component is
`err == nil`; on a failed directory creation the partial list is returned
together with the error, exactly as in the source.  The source uses two
sequential `if` blocks whose guards (`Type == "plugin"`, `Type == "theme"`)
are mutually exclusive, so the chain below is equivalent. -/
def getWordPressMounts (s : Site) (appDir : String) : List Mount × Bool :=
  let appVolumes := baseWordPressMounts s appDir
  let wpContentDir := "/var/www/html/wp-content"
  if s.settings.siteType = "plugin" then
    if s.mkdirOk (filepathJoin (filepathJoin (filepathJoin appDir "wp-content") "plugins") s.settings.Name) then
      (appVolumes ++ [{ mountType := "bind", Source := s.settings.WorkingDirectory,
                        Target := filepathJoin (filepathJoin wpContentDir "plugins") s.settings.Name }], true)
    else (appVolumes, false)
  else if s.settings.siteType = "theme" then
    if s.mkdirOk (filepathJoin (filepathJoin (filepathJoin appDir "wp-content") "themes") s.settings.Name) then
      (appVolumes ++ [{ mountType := "bind", Source := s.settings.WorkingDirectory,
                        Target := filepathJoin (filepathJoin wpContentDir "themes") s.settings.Name }], true)
    else (appVolumes, false)
  else (appVolumes, true)

/-- The WordPress application container built by `getWordPressContainer`
(part_000 lines 149-204), given the result `isUsingSQLite` of the
embedded-database check. -/
def wordPressContainer (s : Site) (appVolumes : List Mount) (isUsingSQLite : Bool) : ContainerConfig :=
  let hostRule := "Host(`" ++ s.settings.SiteDomain ++ "`)"
  let envVars := ["IS_KANA_ENVIRONMENT=true"]
  let envVars :=
    if isUsingSQLite then envVars ++ ["KANA_SQLITE=true"]
    else envVars ++
      ["WORDPRESS_DB_HOST=kana-" ++ s.settings.Name ++ "-database",
       "WORDPRESS_DB_USER=wordpress",
       "WORDPRESS_DB_PASSWORD=wordpress",
       "WORDPRESS_DB_NAME=wordpress",
       "WORDPRESS_ADMIN_USER=admin"]
  let c : ContainerConfig :=
    { Name := "kana-" ++ s.settings.Name ++ "-wordpress",
      Image := "wordpress:php" ++ s.settings.PHP,
      NetworkName := "kana",
      HostName := "kana-" ++ s.settings.Name ++ "-wordpress",
      Env := envVars,
      Labels :=
        [("traefik.enable", "true"),
         ("kana.type", "wordpress"),
         ("traefik.http.routers.wordpress-" ++ s.settings.Name ++ "-http.entrypoints", "web"),
         ("traefik.http.routers.wordpress-" ++ s.settings.Name ++ "-http.rule", hostRule),
         ("traefik.http.routers.wordpress-" ++ s.settings.Name ++ ".entrypoints", "websecure"),
         ("traefik.http.routers.wordpress-" ++ s.settings.Name ++ ".rule", hostRule),
         ("traefik.http.routers.wordpress-" ++ s.settings.Name ++ ".tls", "true"),
         ("kana.site", s.settings.Name)],
      Volumes := appVolumes }
  let c := if s.settings.AutomaticLogin then { c with Env := c.Env ++ ["KANA_ADMIN_LOGIN=true"] } else c
  let c := if s.settings.WPDebug then { c with Env := c.Env ++ ["WORDPRESS_DEBUG=1"] } else c
  let extraConfig :=
    "WORDPRESS_CONFIG_EXTRA=define( \x27WP_ENVIRONMENT_TYPE\x27, \x27" ++ s.settings.Environment ++ "\x27 );"
      ++ (if s.settings.ScriptDebug then "define( \x27SCRIPT_DEBUG\x27, true );" else "")
  { c with Env := c.Env ++ [extraConfig] }

/-- `getWordPressContainer` (part_000 lines 148-209): on an error from the
`isUsingSQLite` check, the input container list is returned unchanged (and
no error is reported — the function has no error return); otherwise the
WordPress container spec is appended. -/
def getWordPressContainer (s : Site) (appVolumes : List Mount)
    (appContainers : List ContainerConfig) : List ContainerConfig :=
  match s.sqliteResult with
  | Except.error _ => appContainers
  | Except.ok b => appContainers ++ [wordPressContainer s appVolumes b]

/-- `getWordPressContainers` (part_000 lines 212-219): the four
role-qualified container names of a site. -/
def getWordPressContainers (s : Site) : List String :=
  ["kana-" ++ s.settings.Name ++ "-database",
   "kana-" ++ s.settings.Name ++ "-wordpress",
   "kana-" ++ s.settings.Name ++ "-phpmyadmin",
   "kana-" ++ s.settings.Name ++ "-mailpit"]

/-- Modelled from the spec: `settings.OverrideType` (outside the provided
sources) sets the runtime artifact type to the given value and may fail;
failure is driven by the `overrideTypeFails` oracle. -/
def overrideType (s : Site) (t : String) : Except Unit Site :=
  if s.overrideTypeFails then Except.error ()
  else Except.ok { s with settings := { s.settings with siteType := t } }

/-- The mount-inspection loop at the top of `WPCli` (part_000 lines
488-504): each existing mount of the running WordPress container may
override the artifact type to plugin or theme; an override error aborts. -/
def applyMountOverrides (s : Site) : List InspectMount → Except Unit Site
  | [] => Except.ok s
  | m :: rest =>
    match (if strContains m.Destination "/var/www/html/wp-content/plugins/" then
            overrideType s "plugin" else Except.ok s) with
    | Except.error e => Except.error e
    | Except.ok s1 =>
      match (if strContains m.Destination "/var/www/html/wp-content/themes/" then
              overrideType s1 "theme" else Except.ok s1) with
      | Except.error e => Except.error e
      | Except.ok s2 => applyMountOverrides s2 rest

/-- The disposable wp-cli container built by `WPCli` (part_000 lines
523-558), given the result of the embedded-database check. -/
def wpCliContainer (s : Site) (appVolumes : List Mount) (fullCommand : List String)
    (isUsingSQLite : Bool) : ContainerConfig :=
  let envVars := ["IS_KANA_ENVIRONMENT=true"]
  let envVars :=
    if isUsingSQLite then envVars ++ ["KANA_SQLITE=true"]
    else envVars ++
      ["WORDPRESS_DB_HOST=kana-" ++ s.settings.Name ++ "-database",
       "WORDPRESS_DB_USER=wordpress",
       "WORDPRESS_DB_PASSWORD=wordpress",
       "WORDPRESS_DB_NAME=wordpress",
       "WORDPRESS_ADMIN_USER=admin"]
  let c : ContainerConfig :=
    { Name := "kana-" ++ s.settings.Name ++ "-wordpress_cli",
      Image := "wordpress:cli-php" ++ s.settings.PHP,
      NetworkName := "kana",
      HostName := "kana-" ++ s.settings.Name ++ "-wordpress_cli",
      Command := fullCommand,
      Env := envVars,
      Labels := [("kana.site", s.settings.Name)],
      Volumes := appVolumes }
  if s.settings.AutomaticLogin then { c with Env := c.Env ++ ["KANA_ADMIN_LOGIN=true"] } else c

/-- `WPCli` (part_000 lines 487-571).  All error returns are `(1, "", err)`
except the final `ContainerRunAndClean` step, which returns
`(code, "", err)` on error and `(code, output, nil)` on success; errors
are modelled as `some ()`. -/
def WPCli (s0 : Site) (command : List String) : Int × String × Option Unit :=
  match applyMountOverrides s0 s0.containerMounts with
  | Except.error _ => (1, "", some ())
  | Except.ok s =>
    match getWordPressDirectory s with
    | Except.error _ => (1, "", some ())
    | Except.ok wordPressDirectory =>
      match getWordPressMounts s wordPressDirectory with
      | (_, false) => (1, "", some ())
      | (appVolumes, true) =>
        let fullCommand := ["wp", "--path=/var/www/html"] ++ command
        match s.sqliteResult with
        | Except.error _ => (1, "", some ())
        | Except.ok isUsingSQLite =>
          let _container := wpCliContainer s appVolumes fullCommand isUsingSQLite
          if s.ensureImageOk then
            match s.runAndClean with
            | (code, _, some e) => (code, "", some e)
            | (code, output, none) => (code, output, none)
          else (1, "", some ())

/-- Modelled from the spec: `ContainerStop` (outside the provided sources)
is idempotent — the absence of the target container is not an error
(spec §4.3).  The engine state is the list of existing container names;
stopping removes the container if present and never fails. -/
def ContainerStop (existing : List String) (name : String) : Option Unit × List String :=
  (none, existing.filter (fun c => c ≠ name))

/-- The loop of `stopWordPress` (part_000 lines 450-455): stop each name in
order, propagating the first error. -/
def stopContainersLoop (existing : List String) : List String → Option Unit × List String
  | [] => (none, existing)
  | c :: rest =>
    match ContainerStop existing c with
    | (some e, ex2) => (some e, ex2)
    | (none, ex2) => stopContainersLoop ex2 rest

/-- `stopWordPress` (part_000 lines 447-458): stops the four role-qualified
containers of the site against the given engine state. -/
def stopWordPress (s : Site) (existing : List String) : Option Unit × List String :=
  stopContainersLoop existing (getWordPressContainers s)

/-- Modelled from the spec: `getDatabaseContainer` (outside the provided
sources) builds the database container spec and appends it before the
application container (spec §4.5: dependency containers first). -/
def getDatabaseContainer (s : Site) (databaseDir : String)
    (appContainers : List ContainerConfig) : List ContainerConfig :=
  appContainers ++
    [{ Name := "kana-" ++ s.settings.Name ++ "-database",
       Image := "mariadb",
       NetworkName := "kana",
       HostName := "kana-" ++ s.settings.Name ++ "-database",
       Volumes := [{ mountType := "bind", Source := databaseDir, Target := "/var/lib/mysql" }] }]

/-- The container start loop of `startWordPress` (part_000 lines 422-427),
with `startContainer` modelled as the oracle `s.startContainerOk`; returns
the names started in order, aborting at the first failure. -/
def startContainersLoop (s : Site) : List ContainerConfig → List String → Option Unit × List String
  | [], started => (none, started)
  | c :: rest, started =>
    if s.startContainerOk c.Name then startContainersLoop s rest (started ++ [c.Name])
    else (some (), started)

/-- `startWordPress` (part_000 lines 395-430).  `EnsureNetwork`,
`getDirectories`, `startContainer` and `verifyDatabase` are outside the
provided sources and modelled from the spec as oracles; the wp-config.php
removal is a file-system side effect with no control-flow impact and is
not modelled.  Returns the error outcome and the names of the containers
started, in order. -/
def startWordPress (s : Site) : Option Unit × List String :=
  if s.ensureNetworkOk then
    match s.getDirectoriesResult with
    | Except.error _ => (some (), [])
    | Except.ok (appDir, databaseDir) =>
      match getWordPressMounts s appDir with
      | (_, false) => (some (), [])
      | (appVolumes, true) =>
        let appContainers := getWordPressContainer s appVolumes (getDatabaseContainer s databaseDir [])
        match startContainersLoop s appContainers [] with
        | (some e, started) => (some e, started)
        | (none, started) => (if s.verifyDatabaseOk then none else some (), started)
  else (some (), [])

/- ----------------------------------------------------------------- -/
/- Helper lemmas                                                      -/
/- ----------------------------------------------------------------- -/

theorem hasPrefixChars_refl_append (as bs : List Char) :
    hasPrefixChars (as ++ bs) as = true := by
  induction as with
  | nil => cases bs <;> rfl
  | cons a as ih => simp [hasPrefixChars, ih]

theorem hasPrefixChars_append_of_le (xs ys pat : List Char)
    (h : pat.length ≤ xs.length) :
    hasPrefixChars (xs ++ ys) pat = hasPrefixChars xs pat := by
  induction pat generalizing xs with
  | nil =>
    cases xs with
    | nil => cases ys <;> rfl
    | cons x xs => rfl
  | cons b bs ih =>
    cases xs with
    | nil => simp at h
    | cons x xs =>
      simp only [List.cons_append, hasPrefixChars]
      by_cases hx : x = b
      · simp only [hx, if_pos rfl]
        exact ih xs (by simpa using h)
      · simp [hx]

theorem string_append_assoc (a b c : String) : a ++ b ++ c = a ++ (b ++ c) := by
  apply String.ext
  simp [String.data_append]

theorem append_ne_of_no_pre (a x c : String)
    (h : hasPrefixChars c.data a.data = false) : a ++ x ≠ c := by
  intro he
  rw [← he, String.data_append, hasPrefixChars_refl_append] at h
  exact Bool.noConfusion h

theorem string_length_append (a b : String) :
    (a ++ b).length = a.length + b.length :=
  String.length_append a b

/- ----------------------------------------------------------------- -/
/- Claims C1 and C2: the engine availability guard                    -/
/- ----------------------------------------------------------------- -/

/-- Claim C1, evaluated at its failing input.  On darwin with a successful
launcher spawn, the initial listing failing and every retry listing
succeeding — so the engine is reachable from retry attempt 1 on — the
guard does not return success at that attempt: it keeps iterating through
all 11 retry listings the loop performs and then returns the exhaustion
error ("Restarting Docker is taking too long"). -/
theorem ensureDocker_ignores_success :
    ensureDockerIsAvailable HostOS.darwin true (fun n => n ≠ 0) =
      (GuardOutcome.tooLong, 11) := by decide

/-- Claim C2, evaluated at its failing input.  On darwin with a successful
launcher spawn and the engine never reachable, the guard performs exactly
one retry listing call and returns that call's raw error — not the
exhaustion error after 12 attempts that the claim describes. -/
theorem ensureDocker_error_aborts_retries :
    ensureDockerIsAvailable HostOS.darwin true (fun _ => false) =
      (GuardOutcome.listErr 1, 1) := by decide

/- ----------------------------------------------------------------- -/
/- Environment composition: shapes shared by claims C3, C4 and C7     -/
/- ----------------------------------------------------------------- -/

/-- The database block of the composed environment: the mode flag when the
embedded-database mode is selected, otherwise the remote connection
variables (with the admin user) of part_000 lines 160-169 / 532-541. -/
def dbEnvBlock (name : String) (isUsingSQLite : Bool) : List String :=
  if isUsingSQLite then ["KANA_SQLITE=true"]
  else ["WORDPRESS_DB_HOST=kana-" ++ name ++ "-database",
        "WORDPRESS_DB_USER=wordpress",
        "WORDPRESS_DB_PASSWORD=wordpress",
        "WORDPRESS_DB_NAME=wordpress",
        "WORDPRESS_ADMIN_USER=admin"]

/-- The always-appended config-extra variable (part_000 lines 198-204):
the environment-type declaration, extended by the script-debug definition
exactly when that flag is set. -/
def extraConfigVar (st : SiteSettings) : String :=
  "WORDPRESS_CONFIG_EXTRA=define( \x27WP_ENVIRONMENT_TYPE\x27, \x27" ++ st.Environment ++ "\x27 );" ++
    (if st.ScriptDebug then "define( \x27SCRIPT_DEBUG\x27, true );" else "")

theorem wordPressContainer_env (s : Site) (v : List Mount) (b : Bool) :
    (wordPressContainer s v b).Env =
      ["IS_KANA_ENVIRONMENT=true"] ++ dbEnvBlock s.settings.Name b ++
      (if s.settings.AutomaticLogin then ["KANA_ADMIN_LOGIN=true"] else []) ++
      (if s.settings.WPDebug then ["WORDPRESS_DEBUG=1"] else []) ++
      [extraConfigVar s.settings] := by
  cases hA : s.settings.AutomaticLogin <;> cases hW : s.settings.WPDebug <;>
    cases b <;>
    simp [wordPressContainer, dbEnvBlock, extraConfigVar, hA, hW]

theorem wpCliContainer_env (s : Site) (v : List Mount) (cmd : List String) (b : Bool) :
    (wpCliContainer s v cmd b).Env =
      ["IS_KANA_ENVIRONMENT=true"] ++ dbEnvBlock s.settings.Name b ++
      (if s.settings.AutomaticLogin then ["KANA_ADMIN_LOGIN=true"] else []) := by
  cases hA : s.settings.AutomaticLogin <;> cases b <;>
    simp [wpCliContainer, dbEnvBlock, hA]

theorem wordPressContainer_volumes (s : Site) (v : List Mount) (b : Bool) :
    (wordPressContainer s v b).Volumes = v := by
  cases hA : s.settings.AutomaticLogin <;> cases hW : s.settings.WPDebug <;>
    simp [wordPressContainer, hA, hW]

theorem wpCliContainer_volumes (s : Site) (v : List Mount) (cmd : List String) (b : Bool) :
    (wpCliContainer s v cmd b).Volumes = v := by
  cases hA : s.settings.AutomaticLogin <;> simp [wpCliContainer, hA]

theorem dbHost_ne (n c : String)
    (h : hasPrefixChars c.data ("WORDPRESS_DB_HOST=kana-" : String).data = false) :
    "WORDPRESS_DB_HOST=kana-" ++ n ++ "-database" ≠ c := by
  rw [string_append_assoc]
  exact append_ne_of_no_pre _ _ _ h

theorem extraConfigVar_ne (st : SiteSettings) (c : String)
    (h : hasPrefixChars c.data
      ("WORDPRESS_CONFIG_EXTRA=define( \x27WP_ENVIRONMENT_TYPE\x27, \x27" : String).data = false) :
    extraConfigVar st ≠ c := by
  unfold extraConfigVar
  simp only [string_append_assoc]
  exact append_ne_of_no_pre _ _ _ h

/-- A remote-database connection variable: assignment to a name beginning
`WORDPRESS_DB_`. -/
def isRemoteDBVar (e : String) : Bool := hasPrefixChars e.data ("WORDPRESS_DB_" : String).data

theorem isRemoteDBVar_append (a x : String) (h : 13 ≤ a.data.length) :
    isRemoteDBVar (a ++ x) = isRemoteDBVar a := by
  unfold isRemoteDBVar
  rw [String.data_append]
  refine hasPrefixChars_append_of_le _ _ _ ?_
  have h13 : ("WORDPRESS_DB_" : String).data.length = 13 := by decide
  omega

theorem isRemoteDBVar_host (n : String) :
    isRemoteDBVar ("WORDPRESS_DB_HOST=kana-" ++ n ++ "-database") = true := by
  rw [isRemoteDBVar_append ("WORDPRESS_DB_HOST=kana-" ++ n) "-database"
      (by rw [String.data_append, List.length_append]
          have h23 : ("WORDPRESS_DB_HOST=kana-" : String).data.length = 23 := by decide
          omega),
    isRemoteDBVar_append "WORDPRESS_DB_HOST=kana-" n (by decide)]
  decide

theorem isRemoteDBVar_extra (st : SiteSettings) :
    isRemoteDBVar (extraConfigVar st) = false := by
  unfold extraConfigVar
  simp only [string_append_assoc]
  rw [isRemoteDBVar_append _ _ (by decide)]
  decide

/-- A sample site with every optional feature flag off. -/
def plainSite : Site :=
  { settings := { Name := "acme", SiteDomain := "acme.dev", PHP := "8.2", Environment := "local" } }

/-- A sample site with automatic login and both debug flags on. -/
def flagSite : Site :=
  { settings := { Name := "acme", SiteDomain := "acme.dev", PHP := "8.2", Environment := "local",
                  AutomaticLogin := true, WPDebug := true, ScriptDebug := true } }

/- ----------------------------------------------------------------- -/
/- Claim C3: environment composition order and optional variables     -/
/- ----------------------------------------------------------------- -/

/-- Claim C3 counterexample: with every optional descriptor flag off, the
environment-type declaration (the config-extra variable) still appears in
the composed environment list, so it is not the case that each of the
listed optional variables appears only when a corresponding descriptor
flag is set. -/
theorem envtype_present_without_flags :
    plainSite.settings.AutomaticLogin = false ∧
    plainSite.settings.WPDebug = false ∧
    plainSite.settings.ScriptDebug = false ∧
    getWordPressContainer plainSite [] [] = [wordPressContainer plainSite [] false] ∧
    "WORDPRESS_CONFIG_EXTRA=define( \x27WP_ENVIRONMENT_TYPE\x27, \x27local\x27 );" ∈
      (wordPressContainer plainSite [] false).Env := by decide

/-- Claim C3 (amended): for every site descriptor whose embedded-database
check yields `b`, the application container's environment list has the
fixed order — base marker first, then the database block, then the
automatic-login and debug variables exactly when their flags are set, and
finally the always-present config-extra variable carrying the
environment-type declaration (extended by the script-debug definition
exactly when that flag is set).  The list is a function of the descriptor
alone, so identical descriptors yield byte-identical lists. -/
theorem wordpress_env_fixed_order (s : Site) (v : List Mount) (b : Bool)
    (h : s.sqliteResult = Except.ok b) :
    getWordPressContainer s v [] = [wordPressContainer s v b] ∧
    (wordPressContainer s v b).Env =
      ["IS_KANA_ENVIRONMENT=true"] ++ dbEnvBlock s.settings.Name b ++
      (if s.settings.AutomaticLogin then ["KANA_ADMIN_LOGIN=true"] else []) ++
      (if s.settings.WPDebug then ["WORDPRESS_DEBUG=1"] else []) ++
      [extraConfigVar s.settings] ∧
    ("KANA_ADMIN_LOGIN=true" ∈ (wordPressContainer s v b).Env ↔
      s.settings.AutomaticLogin = true) ∧
    ("WORDPRESS_DEBUG=1" ∈ (wordPressContainer s v b).Env ↔
      s.settings.WPDebug = true) := by
  have h1 := dbHost_ne s.settings.Name "KANA_ADMIN_LOGIN=true" (by decide)
  have h2 := extraConfigVar_ne s.settings "KANA_ADMIN_LOGIN=true" (by decide)
  have h3 := dbHost_ne s.settings.Name "WORDPRESS_DEBUG=1" (by decide)
  have h4 := extraConfigVar_ne s.settings "WORDPRESS_DEBUG=1" (by decide)
  refine ⟨by simp [getWordPressContainer, h], wordPressContainer_env s v b, ?_, ?_⟩ <;>
    rw [wordPressContainer_env] <;>
    cases hA : s.settings.AutomaticLogin <;> cases hW : s.settings.WPDebug <;> cases b <;>
    simp [dbEnvBlock, hA, hW, Ne.symm h1, Ne.symm h2, Ne.symm h3, Ne.symm h4]

/-- Witness for the amended claim C3 at a site with automatic login and
both debug flags on. -/
theorem wordpress_env_fixed_order_witness :
    getWordPressContainer flagSite [] [] = [wordPressContainer flagSite [] false] :=
  (wordpress_env_fixed_order flagSite [] false rfl).1

/- ----------------------------------------------------------------- -/
/- Claim C4: embedded-database mode versus remote database variables  -/
/- ----------------------------------------------------------------- -/

/-- Claim C4: in embedded-database (SQLite) mode the composed environment
list — of the application container and of the wp-cli command container —
contains the mode flag and no remote-database (`WORDPRESS_DB_`-prefixed)
variables; otherwise it contains exactly the four remote-database
connection variables, whose host is derived from the site name and whose
credentials are fixed, and not the mode flag. -/
theorem sqlite_mode_env (s : Site) (v : List Mount) (cmd : List String) :
    ("KANA_SQLITE=true" ∈ (wordPressContainer s v true).Env ∧
     (wordPressContainer s v true).Env.filter (fun e => isRemoteDBVar e) = []) ∧
    ((wordPressContainer s v false).Env.filter (fun e => isRemoteDBVar e) =
       ["WORDPRESS_DB_HOST=kana-" ++ s.settings.Name ++ "-database",
        "WORDPRESS_DB_USER=wordpress",
        "WORDPRESS_DB_PASSWORD=wordpress",
        "WORDPRESS_DB_NAME=wordpress"] ∧
     "KANA_SQLITE=true" ∉ (wordPressContainer s v false).Env) ∧
    ("KANA_SQLITE=true" ∈ (wpCliContainer s v cmd true).Env ∧
     (wpCliContainer s v cmd true).Env.filter (fun e => isRemoteDBVar e) = []) ∧
    ((wpCliContainer s v cmd false).Env.filter (fun e => isRemoteDBVar e) =
       ["WORDPRESS_DB_HOST=kana-" ++ s.settings.Name ++ "-database",
        "WORDPRESS_DB_USER=wordpress",
        "WORDPRESS_DB_PASSWORD=wordpress",
        "WORDPRESS_DB_NAME=wordpress"] ∧
     "KANA_SQLITE=true" ∉ (wpCliContainer s v cmd false).Env) := by
  have hHost := isRemoteDBVar_host s.settings.Name
  have hExtra := isRemoteDBVar_extra s.settings
  have hne1 := dbHost_ne s.settings.Name "KANA_SQLITE=true" (by decide)
  have hne2 := extraConfigVar_ne s.settings "KANA_SQLITE=true" (by decide)
  have hm : isRemoteDBVar "IS_KANA_ENVIRONMENT=true" = false := by decide
  have hq : isRemoteDBVar "KANA_SQLITE=true" = false := by decide
  have hu : isRemoteDBVar "WORDPRESS_DB_USER=wordpress" = true := by decide
  have hp : isRemoteDBVar "WORDPRESS_DB_PASSWORD=wordpress" = true := by decide
  have hd : isRemoteDBVar "WORDPRESS_DB_NAME=wordpress" = true := by decide
  have ha : isRemoteDBVar "WORDPRESS_ADMIN_USER=admin" = false := by decide
  have hl : isRemoteDBVar "KANA_ADMIN_LOGIN=true" = false := by decide
  have hw : isRemoteDBVar "WORDPRESS_DEBUG=1" = false := by decide
  refine ⟨⟨?_, ?_⟩, ⟨?_, ?_⟩, ⟨?_, ?_⟩, ⟨?_, ?_⟩⟩ <;>
    first
      | (rw [wordPressContainer_env] <;>
          cases hA : s.settings.AutomaticLogin <;> cases hW : s.settings.WPDebug <;>
          simp [dbEnvBlock, hA, hW, List.filter_cons, hHost, hExtra,
            hm, hq, hu, hp, hd, ha, hl, hw, Ne.symm hne1, Ne.symm hne2])
      | (rw [wpCliContainer_env] <;>
          cases hA : s.settings.AutomaticLogin <;>
          simp [dbEnvBlock, hA, List.filter_cons, hHost,
            hm, hq, hu, hp, hd, ha, hl, Ne.symm hne1])

/- ----------------------------------------------------------------- -/
/- Claim C7: command container versus application container           -/
/- ----------------------------------------------------------------- -/

/-- Claim C7 counterexample: at a concrete descriptor (all flags off,
remote database), the wp-cli command container's environment list differs
from the application container's — the application container carries the
config-extra variable the command container never receives — so the two
runtime configurations are not identical. -/
theorem cli_env_not_identical :
    (wpCliContainer plainSite [] ["wp", "--path=/var/www/html"] false).Env ≠
      (wordPressContainer plainSite [] false).Env := by decide

/-- Claim C7 (amended): the command container reuses the mount list it is
given and the same marker / database-block / automatic-login environment
composition as the application container — its environment list is a
prefix of the application container's — but the application container
additionally appends the debug variable (when flagged) and the
config-extra variable, which the command container omits. -/
theorem cli_env_shares_composition (s : Site) (v : List Mount)
    (cmd : List String) (b : Bool) :
    (wordPressContainer s v b).Env =
      (wpCliContainer s v cmd b).Env ++
        ((if s.settings.WPDebug then ["WORDPRESS_DEBUG=1"] else []) ++
         [extraConfigVar s.settings]) ∧
    (wpCliContainer s v cmd b).Volumes = v ∧
    (wordPressContainer s v b).Volumes = v := by
  refine ⟨?_, wpCliContainer_volumes s v cmd b, wordPressContainer_volumes s v b⟩
  rw [wordPressContainer_env, wpCliContainer_env]
  simp [List.append_assoc]

/- ----------------------------------------------------------------- -/
/- Claims C5 and C6: mount planning                                   -/
/- ----------------------------------------------------------------- -/

theorem joinFold_plugins (n : String) :
    filepathJoin (filepathJoin "/var/www/html/wp-content" "plugins") n =
      "/var/www/html/wp-content/plugins/" ++ n := by
  have h : ("/var/www/html/wp-content" ++ "/" ++ "plugins" ++ "/" : String)
      = "/var/www/html/wp-content/plugins/" := by decide
  simp only [filepathJoin]
  rw [← h]

theorem joinFold_themes (n : String) :
    filepathJoin (filepathJoin "/var/www/html/wp-content" "themes") n =
      "/var/www/html/wp-content/themes/" ++ n := by
  have h : ("/var/www/html/wp-content" ++ "/" ++ "themes" ++ "/" : String)
      = "/var/www/html/wp-content/themes/" := by decide
  simp only [filepathJoin]
  rw [← h]

/-- Claim C5: for artifact type `plugin` the planner adds, after the two
always-present binds, a bind of the working directory whose target ends in
`wp-content/plugins/` followed by the artifact name; analogously for
`theme`; for type `site` the result is exactly the two always-present
binds and no artifact-specific mount. -/
theorem mount_planner_artifacts (s : Site) (appDir : String) :
    (s.settings.siteType = "plugin" → (getWordPressMounts s appDir).2 = true →
      (getWordPressMounts s appDir).1 =
        baseWordPressMounts s appDir ++
          [{ mountType := "bind", Source := s.settings.WorkingDirectory,
             Target := "/var/www/html/wp-content/plugins/" ++ s.settings.Name }] ∧
      (∃ p, "/var/www/html/wp-content/plugins/" ++ s.settings.Name =
            p ++ ("wp-content/plugins/" ++ s.settings.Name))) ∧
    (s.settings.siteType = "theme" → (getWordPressMounts s appDir).2 = true →
      (getWordPressMounts s appDir).1 =
        baseWordPressMounts s appDir ++
          [{ mountType := "bind", Source := s.settings.WorkingDirectory,
             Target := "/var/www/html/wp-content/themes/" ++ s.settings.Name }] ∧
      (∃ p, "/var/www/html/wp-content/themes/" ++ s.settings.Name =
            p ++ ("wp-content/themes/" ++ s.settings.Name))) ∧
    (s.settings.siteType = "site" →
      (getWordPressMounts s appDir).1 = baseWordPressMounts s appDir ∧
      (getWordPressMounts s appDir).2 = true) := by
  have hSP : ("/var/www/html/wp-content/plugins/" : String)
      = "/var/www/html/" ++ "wp-content/plugins/" := by decide
  have hST : ("/var/www/html/wp-content/themes/" : String)
      = "/var/www/html/" ++ "wp-content/themes/" := by decide
  refine ⟨fun h1 h2 => ?_, fun h1 h2 => ?_, fun h1 => ?_⟩
  · by_cases hmk : s.mkdirOk (filepathJoin (filepathJoin (filepathJoin appDir "wp-content") "plugins") s.settings.Name)
    · refine ⟨?_, ⟨"/var/www/html/", by rw [hSP, string_append_assoc]⟩⟩
      simp [getWordPressMounts, h1, hmk, joinFold_plugins]
    · exfalso
      simp [getWordPressMounts, h1, hmk] at h2
  · have hp : s.settings.siteType ≠ "plugin" := by rw [h1]; decide
    by_cases hmk : s.mkdirOk (filepathJoin (filepathJoin (filepathJoin appDir "wp-content") "themes") s.settings.Name)
    · refine ⟨?_, ⟨"/var/www/html/", by rw [hST, string_append_assoc]⟩⟩
      simp [getWordPressMounts, h1, hp, hmk, joinFold_themes]
    · exfalso
      simp [getWordPressMounts, h1, hp, hmk] at h2
  · have hp : s.settings.siteType ≠ "plugin" := by rw [h1]; decide
    have ht : s.settings.siteType ≠ "theme" := by rw [h1]; decide
    constructor <;> simp [getWordPressMounts, hp, ht]

/-- A sample plugin-type site. -/
def pluginSite : Site :=
  { settings := { Name := "acme", siteType := "plugin",
                  WorkingDirectory := "/wd", SiteDirectory := "/sd" } }

/-- Witness for claim C5 at a concrete plugin-type site. -/
theorem mount_planner_artifacts_witness :
    (getWordPressMounts pluginSite "/app").1 =
      baseWordPressMounts pluginSite "/app" ++
        [{ mountType := "bind", Source := pluginSite.settings.WorkingDirectory,
           Target := "/var/www/html/wp-content/plugins/" ++ pluginSite.settings.Name }] ∧
    (∃ p, "/var/www/html/wp-content/plugins/" ++ pluginSite.settings.Name =
          p ++ ("wp-content/plugins/" ++ pluginSite.settings.Name)) :=
  (mount_planner_artifacts pluginSite "/app").1 rfl (by decide)

/-- Claim C6: whenever mount planning succeeds, no two planned mounts
share a target path. -/
theorem mount_targets_nodup (s : Site) (appDir : String)
    (h : (getWordPressMounts s appDir).2 = true) :
    ((getWordPressMounts s appDir).1.map Mount.Target).Nodup := by
  have hne1 : ("/var/www/html/wp-content/plugins/" ++ s.settings.Name) ≠ "/var/www/html" :=
    append_ne_of_no_pre _ _ _ (by decide)
  have hne2 : ("/var/www/html/wp-content/plugins/" ++ s.settings.Name) ≠ "/Site" :=
    append_ne_of_no_pre _ _ _ (by decide)
  have hne3 : ("/var/www/html/wp-content/themes/" ++ s.settings.Name) ≠ "/var/www/html" :=
    append_ne_of_no_pre _ _ _ (by decide)
  have hne4 : ("/var/www/html/wp-content/themes/" ++ s.settings.Name) ≠ "/Site" :=
    append_ne_of_no_pre _ _ _ (by decide)
  by_cases h1 : s.settings.siteType = "plugin"
  · by_cases hmk : s.mkdirOk (filepathJoin (filepathJoin (filepathJoin appDir "wp-content") "plugins") s.settings.Name)
    · simp [getWordPressMounts, baseWordPressMounts, h1, hmk, joinFold_plugins,
        List.nodup_cons, Ne.symm hne1, Ne.symm hne2]
    · exfalso; simp [getWordPressMounts, h1, hmk] at h
  · by_cases h2 : s.settings.siteType = "theme"
    · by_cases hmk : s.mkdirOk (filepathJoin (filepathJoin (filepathJoin appDir "wp-content") "themes") s.settings.Name)
      · simp [getWordPressMounts, baseWordPressMounts, h1, h2, hmk, joinFold_themes,
          List.nodup_cons, Ne.symm hne3, Ne.symm hne4]
      · exfalso; simp [getWordPressMounts, h1, h2, hmk] at h
    · simp [getWordPressMounts, baseWordPressMounts, h1, h2, List.nodup_cons]

/-- Witness for claim C6 at a concrete plugin-type site. -/
theorem mount_targets_nodup_witness :
    ((getWordPressMounts pluginSite "/app").1.map Mount.Target).Nodup :=
  mount_targets_nodup pluginSite "/app" (by decide)

/- ----------------------------------------------------------------- -/
/- Claim C8: stopping the site                                        -/
/- ----------------------------------------------------------------- -/

/-- Claim C8: `stopWordPress` iterates exactly the four role-qualified
container names derived from the site name and returns success for every
engine state — in particular when some or all of those containers do not
exist.  (`ContainerStop` itself is outside the provided sources and is
modelled from the spec as idempotent: absence is not an error.) -/
theorem stop_succeeds_without_containers (s : Site) (existing : List String) :
    getWordPressContainers s =
      ["kana-" ++ s.settings.Name ++ "-database",
       "kana-" ++ s.settings.Name ++ "-wordpress",
       "kana-" ++ s.settings.Name ++ "-phpmyadmin",
       "kana-" ++ s.settings.Name ++ "-mailpit"] ∧
    (stopWordPress s existing).1 = none := by
  refine ⟨rfl, ?_⟩
  simp [stopWordPress, getWordPressContainers, stopContainersLoop, ContainerStop]

/- ----------------------------------------------------------------- -/
/- Claim C9: SQLite-check error drops the application container       -/
/- ----------------------------------------------------------------- -/

/-- Claim C9: when the embedded-database check itself errors,
`getWordPressContainer` returns its input list unchanged and reports no
error, so the start sequence proceeds with only the database container
and — with the remaining steps succeeding — reports overall success while
never starting an application container. -/
theorem sqlite_error_skips_app_container (s : Site) (v : List Mount)
    (cs : List ContainerConfig) (appDir databaseDir : String)
    (hsql : s.sqliteResult = Except.error ())
    (hnet : s.ensureNetworkOk = true)
    (hdirs : s.getDirectoriesResult = Except.ok (appDir, databaseDir))
    (hmounts : (getWordPressMounts s appDir).2 = true)
    (hstart : s.startContainerOk ("kana-" ++ s.settings.Name ++ "-database") = true)
    (hverify : s.verifyDatabaseOk = true) :
    getWordPressContainer s v cs = cs ∧
    startWordPress s = (none, ["kana-" ++ s.settings.Name ++ "-database"]) := by
  refine ⟨by simp [getWordPressContainer, hsql], ?_⟩
  rcases hm : getWordPressMounts s appDir with ⟨vols, ok⟩
  rw [hm] at hmounts
  simp at hmounts
  subst hmounts
  simp [startWordPress, hnet, hdirs, hm, getWordPressContainer, hsql,
    getDatabaseContainer, startContainersLoop, hstart, hverify]

/-- A sample site whose embedded-database check errors. -/
def dbOnlySite : Site :=
  { settings := { Name := "acme" }, sqliteResult := Except.error (),
    getDirectoriesResult := Except.ok ("/app", "/db") }

/-- Witness for claim C9 at a concrete site. -/
theorem sqlite_error_skips_app_container_witness :
    getWordPressContainer dbOnlySite [] [] = [] ∧
    startWordPress dbOnlySite = (none, ["kana-" ++ dbOnlySite.settings.Name ++ "-database"]) :=
  sqlite_error_skips_app_container dbOnlySite [] [] "/app" "/db"
    rfl rfl rfl (by decide) rfl rfl

/- ----------------------------------------------------------------- -/
/- Claim C10: WPCli discards captured output on error                 -/
/- ----------------------------------------------------------------- -/

/-- Claim C10: once `WPCli` reaches the `ContainerRunAndClean` call (all
earlier steps succeed), a non-nil error makes it return the exit status
code with an empty output string, discarding the captured output, while a
nil error makes it return the captured output unchanged. -/
theorem wpcli_error_discards_output (s0 s : Site) (command : List String)
    (wordPressDirectory : String) (b : Bool)
    (hover : applyMountOverrides s0 s0.containerMounts = Except.ok s)
    (hdir : getWordPressDirectory s = Except.ok wordPressDirectory)
    (hmounts : (getWordPressMounts s wordPressDirectory).2 = true)
    (hsql : s.sqliteResult = Except.ok b)
    (himg : s.ensureImageOk = true) :
    WPCli s0 command =
      (s.runAndClean.1,
       if (s.runAndClean.2.2).isSome then "" else s.runAndClean.2.1,
       s.runAndClean.2.2) := by
  rcases hm : getWordPressMounts s wordPressDirectory with ⟨vols, ok⟩
  rw [hm] at hmounts
  simp at hmounts
  subst hmounts
  rcases hr : s.runAndClean with ⟨code, output, err⟩
  cases err <;>
    simp [WPCli, hover, hdir, hm, hsql, himg, hr]

/-- A sample site whose run-and-clean call fails with captured output. -/
def cliFailSite : Site := { runAndClean := (3, "captured", some ()) }

/-- Witness for claim C10 at a concrete site: the captured output is
discarded and the exit code kept. -/
theorem wpcli_error_discards_output_witness :
    WPCli cliFailSite ["plugin", "list"] =
      (cliFailSite.runAndClean.1,
       if (cliFailSite.runAndClean.2.2).isSome then "" else cliFailSite.runAndClean.2.1,
       cliFailSite.runAndClean.2.2) :=
  wpcli_error_discards_output cliFailSite cliFailSite ["plugin", "list"] "" false
    rfl rfl (by decide) rfl rfl
